import Mathlib

/-!
Verification of the response-caching and duplicate-request-suppression layer of the
AIXTIV-SYMPHONY repository, as implemented in
`wing/agencies/core-agency/anthropic-s2do-governance.py` (classes `CacheManager`,
`PersistentMemoryManager`, `S2DOGovernance`, `ClaudeAutomation`) and its near-clone
`enhanced-openai-automation.py`.

The embedding models:
  * `_generate_cache_key` (MD5 of the UTF-8 encoded prompt), including the fact that
    `str.encode()` raises `UnicodeEncodeError` on lone surrogates;
  * `CacheManager.get` / `CacheManager.set` over an explicit state
    (in-memory fast tier, Firebase durable tier, configuration flags), with the
    possible failure of the durable backend modelled by a boolean and the
    `try`/`except` blocks of the source modelled by `Except`;
  * `ClaudeAutomation.process_data_with_claude`: governance records, the
    persistent-memory exact lookup, the semantic-similarity fallback, the standard
    cache lookup and the retried API call, with an explicit event trace.

Machine integers are `Nat` with explicit reduction mod `2 ^ 32` where overflow matters.
-/

set_option maxRecDepth 100000

namespace Aixtiv

/-! ## MD5 (the digest used by `CacheManager._generate_cache_key`)

`hashlib.md5(prompt.encode()).hexdigest()` over the UTF-8 bytes of the prompt.
Implemented from RFC 1321: little-endian words, 64 rounds per 512-bit block.
-/

/-- Reduce to a 32-bit word. -/
def w32 (n : Nat) : Nat := n % 4294967296

/-- 32-bit left rotation. -/
def rotl32 (x s : Nat) : Nat := w32 ((x <<< s) ||| (x >>> (32 - s)))

/-- The 64 MD5 sine-derived constants (RFC 1321 table T). -/
def md5K : List Nat :=
  [0xd76aa478, 0xe8c7b756, 0x242070db, 0xc1bdceee,
   0xf57c0faf, 0x4787c62a, 0xa8304613, 0xfd469501,
   0x698098d8, 0x8b44f7af, 0xffff5bb1, 0x895cd7be,
   0x6b901122, 0xfd987193, 0xa679438e, 0x49b40821,
   0xf61e2562, 0xc040b340, 0x265e5a51, 0xe9b6c7aa,
   0xd62f105d, 0x02441453, 0xd8a1e681, 0xe7d3fbc8,
   0x21e1cde6, 0xc33707d6, 0xf4d50d87, 0x455a14ed,
   0xa9e3e905, 0xfcefa3f8, 0x676f02d9, 0x8d2a4c8a,
   0xfffa3942, 0x8771f681, 0x6d9d6122, 0xfde5380c,
   0xa4beea44, 0x4bdecfa9, 0xf6bb4b60, 0xbebfbc70,
   0x289b7ec6, 0xeaa127fa, 0xd4ef3085, 0x04881d05,
   0xd9d4d039, 0xe6db99e5, 0x1fa27cf8, 0xc4ac5665,
   0xf4292244, 0x432aff97, 0xab9423a7, 0xfc93a039,
   0x655b59c3, 0x8f0ccc92, 0xffeff47d, 0x85845dd1,
   0x6fa87e4f, 0xfe2ce6e0, 0xa3014314, 0x4e0811a1,
   0xf7537e82, 0xbd3af235, 0x2ad7d2bb, 0xeb86d391]

/-- The 64 per-round left-rotation amounts. -/
def md5S : List Nat :=
  [7, 12, 17, 22, 7, 12, 17, 22, 7, 12, 17, 22, 7, 12, 17, 22,
   5, 9, 14, 20, 5, 9, 14, 20, 5, 9, 14, 20, 5, 9, 14, 20,
   4, 11, 16, 23, 4, 11, 16, 23, 4, 11, 16, 23, 4, 11, 16, 23,
   6, 10, 15, 21, 6, 10, 15, 21, 6, 10, 15, 21, 6, 10, 15, 21]

/-- The MD5 round boolean function for round index `i`. -/
def md5F (i b c d : Nat) : Nat :=
  if i < 16 then (b &&& c) ||| ((4294967295 ^^^ b) &&& d)
  else if i < 32 then (d &&& b) ||| ((4294967295 ^^^ d) &&& c)
  else if i < 48 then b ^^^ c ^^^ d
  else c ^^^ (b ||| (4294967295 ^^^ d))

/-- The message-word index used in round `i`. -/
def md5G (i : Nat) : Nat :=
  if i < 16 then i
  else if i < 32 then (5 * i + 1) % 16
  else if i < 48 then (3 * i + 5) % 16
  else (7 * i) % 16

/-- Little-endian 32-bit word `j` of a 64-byte block. -/
def leWord (bs : List Nat) (j : Nat) : Nat :=
  bs.getD (4 * j) 0 + 256 * bs.getD (4 * j + 1) 0 +
    65536 * bs.getD (4 * j + 2) 0 + 16777216 * bs.getD (4 * j + 3) 0

/-- One MD5 round on the running state `(a, b, c, d)`. -/
def md5Round (bs : List Nat) (st : Nat × Nat × Nat × Nat) (i : Nat) :
    Nat × Nat × Nat × Nat :=
  match st with
  | (a, b, c, d) =>
    let f := w32 (md5F i b c d + a + md5K.getD i 0 + leWord bs (md5G i))
    (d, w32 (b + rotl32 f (md5S.getD i 0)), b, c)

/-- Process one 64-byte block. -/
def md5Block (st : Nat × Nat × Nat × Nat) (bs : List Nat) : Nat × Nat × Nat × Nat :=
  match st, (List.range 64).foldl (md5Round bs) st with
  | (a0, b0, c0, d0), (a, b, c, d) => (w32 (a0 + a), w32 (b0 + b), w32 (c0 + c), w32 (d0 + d))

/-- Process the padded message 64 bytes at a time (`fuel` bounds the number of blocks). -/
def md5Chunks : Nat → (Nat × Nat × Nat × Nat) → List Nat → Nat × Nat × Nat × Nat
  | 0, st, _ => st
  | _ + 1, st, [] => st
  | fuel + 1, st, b :: bs =>
    md5Chunks fuel (md5Block st (List.take 64 (b :: bs))) (List.drop 64 (b :: bs))

/-- `n` little-endian bytes of `v`. -/
def leBytes (n v : Nat) : List Nat :=
  (List.range n).map (fun i => v / 256 ^ i % 256)

/-- MD5 padding: `0x80`, zeros to 56 mod 64, then the bit length as 8 little-endian bytes. -/
def md5Pad (msg : List Nat) : List Nat :=
  let len := msg.length
  let zeros := (56 + 64 - (len + 1) % 64) % 64
  msg ++ [128] ++ List.replicate zeros 0 ++ leBytes 8 (len * 8 % 18446744073709551616)

/-- A nibble as a lowercase hex character. -/
def hexDigit (n : Nat) : Char :=
  if n < 10 then Char.ofNat (48 + n) else Char.ofNat (87 + n)

/-- A byte as two lowercase hex characters. -/
def byteHex (b : Nat) : List Char := [hexDigit (b / 16), hexDigit (b % 16)]

/-- The 16 digest bytes of the MD5 of a byte string. -/
def md5Bytes (msg : List Nat) : List Nat :=
  let padded := md5Pad msg
  match md5Chunks (padded.length / 64 + 1) (0x67452301, 0xefcdab89, 0x98badcfe, 0x10325476)
      padded with
  | (a, b, c, d) => leBytes 4 a ++ leBytes 4 b ++ leBytes 4 c ++ leBytes 4 d

/-- `hashlib.md5(bytes).hexdigest()`: the 32-character lowercase hex digest. -/
def md5Hex (msg : List Nat) : String :=
  String.mk (((md5Bytes msg).map byteHex).flatten)

/-! ## Python strings and UTF-8 encoding

A Python `str` is a sequence of Unicode code points, possibly including lone
surrogates. `str.encode()` (UTF-8) raises `UnicodeEncodeError` on surrogates.
-/

/-- UTF-8 encoding of a single code point; `none` for surrogates and out-of-range values. -/
def utf8EncodeChar (c : Nat) : Option (List Nat) :=
  if c < 128 then some [c]
  else if c < 2048 then some [192 + c / 64, 128 + c % 64]
  else if 55296 ≤ c ∧ c ≤ 57343 then none
  else if c < 65536 then some [224 + c / 4096, 128 + c / 64 % 64, 128 + c % 64]
  else if c < 1114112 then
    some [240 + c / 262144, 128 + c / 4096 % 64, 128 + c / 64 % 64, 128 + c % 64]
  else none

/-- `str.encode()`: UTF-8 bytes of the code-point sequence, `none` if encoding raises. -/
def pyEncodeUtf8 : List Nat → Option (List Nat)
  | [] => some []
  | c :: cs => do
    let b ← utf8EncodeChar c
    let rest ← pyEncodeUtf8 cs
    pure (b ++ rest)

/-- A payload that `str.encode()` accepts. -/
def ValidPyStr (p : List Nat) : Prop := (pyEncodeUtf8 p).isSome

instance (p : List Nat) : Decidable (ValidPyStr p) := by
  unfold ValidPyStr; infer_instance

/-- Code points of an ASCII Lean string, used to write concrete payloads. -/
def ascii (s : String) : List Nat := s.toList.map Char.toNat

/-- Python exceptions that the modelled code can raise or swallow. -/
inductive PyErr where
  | keyError
  | attributeError
  | unicodeEncodeError
  | firebaseError
  | apiError
deriving DecidableEq, Repr

/-- Embedding of `CacheManager._generate_cache_key`:
`hashlib.md5(prompt.encode()).hexdigest()`. The source has no error handling here, so
a `UnicodeEncodeError` from `prompt.encode()` (lone surrogate in the prompt)
propagates to the caller. -/
def generate_cache_key (prompt : List Nat) : Except PyErr String :=
  match pyEncodeUtf8 prompt with
  | none => .error .unicodeEncodeError
  | some bytes => .ok (md5Hex bytes)

/-! ## CacheManager state

`CacheManager.__init__` sets up `memory_cache = {}` and `memory_cache_expiry = {}`
(the in-memory fast tier, a pair of dicts keyed by the cache key), the configuration
flags `firebase_enabled`, `q4d_lens_enabled` and `cache_ttl`, and the Firestore
collection (modelled as a map from document id to document). Timestamps
(`time.time()`) are modelled as `Nat`.
-/

/-- A point update of a string-keyed dictionary. -/
def upd {α : Type} (f : String → Option α) (k : String) (v : Option α) :
    String → Option α :=
  fun x => if x = k then v else f x

/-- A Firestore document of the cache collection, as written by `CacheManager.set`:
`prompt`, `response`, `expiry` and the `hash_key` field added for Q4D Lens querying
(`created_at` and the passthrough S2 persistence metadata are not used by any lookup and
are omitted). -/
structure CacheDoc (V : Type) where
  prompt : List Nat
  response : V
  expiry : Nat
  hash_key : String

/-- The mutable state of a `CacheManager` instance (plus its Firestore collection). -/
structure CacheState (V : Type) where
  memory_cache : String → Option V
  memory_cache_expiry : String → Option Nat
  firebase_enabled : Bool
  q4d_lens_enabled : Bool
  firestore : String → Option (CacheDoc V)
  cache_ttl : Nat

/-- The fresh state built by `CacheManager.__init__`: both fast-tier dicts empty. -/
def CacheState.init (V : Type) (firebase q4d : Bool) (ttl : Nat) : CacheState V :=
  ⟨fun _ => none, fun _ => none, firebase, q4d, fun _ => none, ttl⟩

/-- Events observable during a cache operation, in program order:
durable-tier accesses, similarity queries and governance transaction records. -/
inductive TxType where
  | claude_request
  | memory_hit
  | semantic_hit
  | cache_hit
  | api_call_success
  | api_call_error
  | api_call_failure
deriving DecidableEq, Repr

inductive Ev where
  | fbQuery
  | fbDelete
  | fbWrite
  | semanticQuery
  | tx (t : TxType)
deriving DecidableEq, Repr

/-- Result of `CacheManager.get`: the returned value, the state after the call and
the events emitted. -/
structure GetResult (V : Type) where
  result : Option V
  state : CacheState V
  evs : List Ev

/-- Result of `CacheManager.set`. -/
structure SetResult (V : Type) where
  state : CacheState V
  evs : List Ev

/-- The body of the `try` block of the Firebase branch of `CacheManager.get`.
`fbFail` models the durable backend raising on access.

With `q4d_lens_enabled` the source runs
`query.where("hash_key", "==", cache_key).optimize_query_lens("q4d").limit(1).stream()`;
the Firestore Python client (`google.cloud.firestore` `Query`) defines no
`optimize_query_lens` attribute and the repository defines none either, so this call
raises `AttributeError` before any document is read.

The standard branch reads document `cache_key`; a live document populates the fast
tier, an expired one is deleted remotely. -/
def fbLookup {V : Type} (s : CacheState V) (cache_key : String) (now : Nat)
    (fbFail : Bool) : Except PyErr (GetResult V) :=
  if fbFail then .error .firebaseError
  else if s.q4d_lens_enabled then .error .attributeError
  else
    match s.firestore cache_key with
    | none => .ok ⟨none, s, [.fbQuery]⟩
    | some doc =>
      if doc.expiry > now then
        .ok ⟨some doc.response,
          { s with
            memory_cache := upd s.memory_cache cache_key (some doc.response)
            memory_cache_expiry := upd s.memory_cache_expiry cache_key (some doc.expiry) },
          [.fbQuery]⟩
      else
        .ok ⟨none, { s with firestore := upd s.firestore cache_key none },
          [.fbQuery, .fbDelete]⟩

/-- The Firebase phase of `CacheManager.get`: run only if `firebase_enabled`; any
exception of the `try` block (backend failure, or the Q4D `AttributeError`) is caught
by `except Exception`, logged, and the lookup falls through to `return None`. -/
def fbPhase {V : Type} (s : CacheState V) (cache_key : String) (now : Nat)
    (fbFail : Bool) : GetResult V :=
  if s.firebase_enabled then
    match fbLookup s cache_key now fbFail with
    | .error _ => ⟨none, s, [.fbQuery]⟩
    | .ok r => r
  else ⟨none, s, []⟩

/-- Embedding of `CacheManager.get`: derive the key (can raise `UnicodeEncodeError`);
check the memory tier (`memory_cache_expiry[cache_key]` raises `KeyError` if the two
dicts disagree); a live memory entry is returned, an expired one is deleted from both
dicts before falling through to the Firebase phase. -/
def CacheManager.get {V : Type} (s : CacheState V) (prompt : List Nat) (now : Nat)
    (fbFail : Bool) : Except PyErr (GetResult V) := do
  let cache_key ← generate_cache_key prompt
  match s.memory_cache cache_key with
  | some v =>
    match s.memory_cache_expiry cache_key with
    | none => .error .keyError
    | some e =>
      if e > now then .ok ⟨some v, s, []⟩
      else
        let s1 : CacheState V :=
          { s with
            memory_cache := upd s.memory_cache cache_key none
            memory_cache_expiry := upd s.memory_cache_expiry cache_key none }
        .ok (fbPhase s1 cache_key now fbFail)
  | none => .ok (fbPhase s cache_key now fbFail)

/-- Embedding of `CacheManager.set`: derive the key, write the memory tier
(`expiry = time.time() + cache_ttl`), then, if Firebase is enabled, write the document
inside a transaction; a backend failure is caught (`except Exception`), logged, and
leaves the remote collection unchanged while the memory write stands. -/
def CacheManager.set {V : Type} (s : CacheState V) (prompt : List Nat) (response : V)
    (now : Nat) (fbFail : Bool) : Except PyErr (SetResult V) := do
  let cache_key ← generate_cache_key prompt
  let expiry := now + s.cache_ttl
  let s1 : CacheState V :=
    { s with
      memory_cache := upd s.memory_cache cache_key (some response)
      memory_cache_expiry := upd s.memory_cache_expiry cache_key (some expiry) }
  if s1.firebase_enabled then
    if fbFail then .ok ⟨s1, []⟩
    else
      .ok ⟨{ s1 with
              firestore := upd s1.firestore cache_key
                (some ⟨prompt, response, expiry, cache_key⟩) },
        [.fbWrite]⟩
  else .ok ⟨s1, []⟩

/-! ## Persistent memory and the request orchestrator

`ClaudeAutomation.process_data_with_claude` consults, in program order:
the governance record, the persistent-memory exact-key lookup
(`PersistentMemoryManager.retrieve_by_key` on `"prompt_" + md5(prompt)`),
the semantic-similarity search (`search_semantic`, accepted when the top score is
strictly greater than `0.92`), the standard `CacheManager.get`, and finally the
retried API call followed by `CacheManager.set` and `store_memory`.
-/

/-- A persistent-memory record as returned by `retrieve_by_key` (the Pinecone vector
metadata). The caller only tests whether the dict is non-empty and has a
`"response"` entry; `response = none` models a record without that entry. -/
structure PMRecord (V : Type) where
  response : Option V
deriving DecidableEq, Repr

/-- One match of `search_semantic`: Pinecone match id and cosine-similarity score
(scores modelled as rationals). -/
structure SemanticMatch where
  key : String
  score : ℚ
deriving DecidableEq, Repr

/-- The persistent-memory backend: the keyed store behind `retrieve_by_key` /
`store_memory`, and the similarity index behind `search_semantic` (as a function
from the query prompt to the ranked match list for `top_k = 1`). -/
structure PMState (V : Type) where
  store : String → Option (PMRecord V)
  search : List Nat → List SemanticMatch

/-- Configuration of `ClaudeAutomation` relevant to one request:
whether `s2do_governance`, `persistent_memory` and `semantic_modeling` are
configured, the `semantic_modeling.auto_enrichment` option, and
`anthropic.max_retries`. -/
structure AutomationConfig where
  gov : Bool
  pm_enabled : Bool
  semantic_modeling : Bool
  auto_enrichment : Bool
  max_retries : Nat

/-- The semantic acceptance test of the source:
`semantic_results[0]["score"] > 0.92` (strict; the threshold `0.92` written as the
rational `mkRat 92 100`). -/
def semanticAccept (score : ℚ) : Bool := mkRat 92 100 < score

/-- The persistent-memory block of `process_data_with_claude` (the `try` body):
exact lookup by `memory_key`, then, if semantic modelling and auto-enrichment are on,
the similarity search. `pmFail` models any persistent-memory access raising; the
surrounding `except Exception` catches it and the request falls through to the
standard cache. Returns the emitted events and the hit, if any. -/
def pmPhase {V : Type} (cfg : AutomationConfig) (pm : PMState V) (prompt : List Nat)
    (pmFail : Bool) : List Ev × Option V :=
  if cfg.pm_enabled then
    if pmFail then ([], none)
    else
      match generate_cache_key prompt with
      | .error _ => ([], none)
      | .ok h =>
        let memory_key := "prompt_" ++ h
        match pm.store memory_key with
        | some r =>
          match r.response with
          | some v => ((if cfg.gov then [Ev.tx .memory_hit] else []), some v)
          | none => pmSemantic cfg pm prompt
        | none => pmSemantic cfg pm prompt
  else ([], none)
where
  /-- The semantic-search part: embed the prompt and query the similarity index
  (`search_semantic(prompt, top_k=1)`), accept the top match only when its score is
  strictly above `0.92`, then fetch the matched key and require a `"response"`
  entry; on any shortfall fall through to the standard cache. -/
  pmSemantic (cfg : AutomationConfig) (pm : PMState V) (prompt : List Nat) :
      List Ev × Option V :=
    if cfg.semantic_modeling && cfg.auto_enrichment then
      match pm.search prompt with
      | [] => ([Ev.semanticQuery], none)
      | m :: _ =>
        if semanticAccept m.score then
          match pm.store m.key with
          | some r2 =>
            match r2.response with
            | some v =>
              ([Ev.semanticQuery] ++ (if cfg.gov then [Ev.tx .semantic_hit] else []),
                some v)
            | none => ([Ev.semanticQuery], none)
          | none => ([Ev.semanticQuery], none)
        else ([Ev.semanticQuery], none)
    else ([], none)

/-- The retry loop around the Claude API call. `api attempt` is the outcome of
attempt number `attempt` (`none` = the call raised). A failed attempt before the
last records `api_call_error` and retries; the last failure records
`api_call_failure` and re-raises. Success records `api_call_success`. -/
def apiPhase {V : Type} (gov : Bool) (api : Nat → Option V) :
    Nat → Nat → List Ev × Option V
  | _, 0 => ([], none)
  | attempt, fuel + 1 =>
    match api attempt with
    | some v => ((if gov then [Ev.tx .api_call_success] else []), some v)
    | none =>
      if fuel = 0 then ((if gov then [Ev.tx .api_call_failure] else []), none)
      else
        match apiPhase gov api (attempt + 1) fuel with
        | (evs, r) => ((if gov then [Ev.tx .api_call_error] else []) ++ evs, r)

/-- Result of one `process_data_with_claude` request: the returned value or the
propagated exception, the cache state and persistent store after the call, and the
events emitted in program order. -/
structure ProcResult (V : Type) where
  outcome : Except PyErr V
  cache : CacheState V
  pmStore : String → Option (PMRecord V)
  evs : List Ev

/-- The body of `process_data_with_claude` after the governance record:
persistent-memory tier, standard cache (a truthy cached response is returned and
recorded as `cache_hit`; Python truthiness of the response dict is `truthy`), then
the API retry loop, whose successful value is written through `CacheManager.set` and
`store_memory`. Emits every event except the initial `claude_request` record. -/
def processMain {V : Type} (cfg : AutomationConfig) (cache : CacheState V)
    (pm : PMState V) (truthy : V → Bool) (prompt : List Nat) (now : Nat)
    (fbFail pmFail : Bool) (api : Nat → Option V) : ProcResult V :=
  match pmPhase cfg pm prompt pmFail with
  | (evsPm, some v) => ⟨.ok v, cache, pm.store, evsPm⟩
  | (evsPm, none) =>
    match CacheManager.get cache prompt now fbFail with
    | .error e => ⟨.error e, cache, pm.store, evsPm⟩
    | .ok gr =>
      match gr.result with
      | some v =>
        if truthy v then
          ⟨.ok v, gr.state, pm.store,
            evsPm ++ gr.evs ++ (if cfg.gov then [Ev.tx .cache_hit] else [])⟩
        else processApi cfg gr.state pm prompt now fbFail pmFail api evsPm gr.evs
      | none => processApi cfg gr.state pm prompt now fbFail pmFail api evsPm gr.evs
where
  /-- The full-miss tail: API retry loop, then write-through of the response. -/
  processApi (cfg : AutomationConfig) (cache : CacheState V) (pm : PMState V)
      (prompt : List Nat) (now : Nat) (fbFail pmFail : Bool)
      (api : Nat → Option V) (evsPm evsGet : List Ev) : ProcResult V :=
    match apiPhase cfg.gov api 0 (cfg.max_retries + 1) with
    | (evsApi, none) => ⟨.error .apiError, cache, pm.store, evsPm ++ evsGet ++ evsApi⟩
    | (evsApi, some v) =>
      match CacheManager.set cache prompt v now fbFail with
      | .error e => ⟨.error e, cache, pm.store, evsPm ++ evsGet ++ evsApi⟩
      | .ok sr =>
        let store2 :=
          if cfg.pm_enabled && !pmFail then
            match generate_cache_key prompt with
            | .ok h => upd pm.store ("prompt_" ++ h) (some ⟨some v⟩)
            | .error _ => pm.store
          else pm.store
        ⟨.ok v, sr.state, store2, evsPm ++ evsGet ++ evsApi ++ sr.evs⟩

/-- Embedding of `ClaudeAutomation.process_data_with_claude` for a string payload.
When governance is enabled the request transaction (`claude_request`, whose data
includes `hashlib.sha256(prompt.encode())`) is recorded first; building its data
already raises `UnicodeEncodeError` for an unencodable prompt, and an unencodable
prompt likewise makes the later `CacheManager.get` raise, so the request errors out
with no events either way. -/
def process_data_with_claude {V : Type} (cfg : AutomationConfig)
    (cache : CacheState V) (pm : PMState V) (truthy : V → Bool) (prompt : List Nat)
    (now : Nat) (fbFail pmFail : Bool) (api : Nat → Option V) : ProcResult V :=
  match pyEncodeUtf8 prompt with
  | none => ⟨.error .unicodeEncodeError, cache, pm.store, []⟩
  | some _ =>
    match processMain cfg cache pm truthy prompt now fbFail pmFail api with
    | r =>
      ⟨r.outcome, r.cache, r.pmStore,
        (if cfg.gov then [Ev.tx .claude_request] else []) ++ r.evs⟩

/-! ## Derived notions and concrete fixtures -/

/-- The fast-tier consistency invariant: `memory_cache` and `memory_cache_expiry`
hold exactly the same keys. -/
def SameKeys {V : Type} (s : CacheState V) : Prop :=
  ∀ k, (s.memory_cache k).isSome ↔ (s.memory_cache_expiry k).isSome

/-- The hit / compute transaction types that reference the request transaction. -/
def hitComputeTx : TxType → Bool
  | .memory_hit => true
  | .semantic_hit => true
  | .cache_hit => true
  | .api_call_success => true
  | .api_call_error => true
  | _ => false

/-- The payload used in concrete runs, and its MD5 cache key. -/
def exPrompt : List Nat := ascii "a"

def exKey : String := "0cc175b9c0f1b6a831c399e269772661"

/-- Two distinct 72-character ASCII payloads with the same MD5
(the Stevens 2023 plain-text MD5 collision). -/
def collA : List Nat :=
  ascii "TEXTCOLLBYfGiJUETHQ4hAcKSMd5zYpgqf1YRDhkmxHkhPWptrkoyz28wnI9V0aHeAuaKnak"

def collB : List Nat :=
  ascii "TEXTCOLLBYfGiJUETHQ4hEcKSMd5zYpgqf1YRDhkmxHkhPWptrkoyz28wnI9V0aHeAuaKnak"

/-- A cache state whose fast tier holds `exKey` live (value `7`, expiry `100`),
Firebase disabled. -/
def cacheFastHit : CacheState Nat :=
  ⟨upd (fun _ => none) exKey (some 7), upd (fun _ => none) exKey (some 100),
    false, false, fun _ => none, 3600⟩

/-- A persistent-memory backend with no stored records whose similarity search
returns one strong match. -/
def pmStrongMatch : PMState Nat :=
  ⟨fun _ => none, fun _ => [⟨"simkey", mkRat 95 100⟩]⟩

/-- A persistent-memory backend holding a record under `"simkey"` whose similarity
search scores it exactly at the `0.92` threshold. -/
def pmBoundaryMatch : PMState Nat :=
  ⟨fun k => if k = "simkey" then some ⟨some 7⟩ else none,
    fun _ => [⟨"simkey", mkRat 92 100⟩]⟩

/-- A persistent-memory backend holding an exact record for `exPrompt` and a
strong similarity match, to witness the amended ordering claim. -/
def pmExactHit : PMState Nat :=
  ⟨fun k => if k = "prompt_" ++ exKey then some ⟨some 42⟩ else none,
    fun _ => [⟨"simkey", mkRat 95 100⟩]⟩

/-- A persistent-memory backend for the semantic-hit witness: no exact record for
`exPrompt`, a match under `"simkey"` scoring `0.95`. -/
def pmSemanticHit : PMState Nat :=
  ⟨fun k => if k = "simkey" then some ⟨some 7⟩ else none,
    fun _ => [⟨"simkey", mkRat 95 100⟩]⟩

/-- A Firestore collection holding one live document for `exKey` (value `7`,
expiry `100`). -/
def fsLiveDoc : String → Option (CacheDoc Nat) :=
  upd (fun _ => none) exKey (some ⟨exPrompt, 7, 100, exKey⟩)

/-- A cache state with an empty fast tier, Firebase enabled with the Q4D Lens
query path toggled on, and one live remote document for `exKey`. -/
def cacheQ4d : CacheState Nat :=
  ⟨fun _ => none, fun _ => none, true, true, fsLiveDoc, 3600⟩

/-- The same state with the standard (non-Q4D) query path. -/
def cacheStd : CacheState Nat :=
  ⟨fun _ => none, fun _ => none, true, false, fsLiveDoc, 3600⟩

/-- Python truthiness specialised to `Nat`-valued responses (every value truthy). -/
def truthyNat : Nat → Bool := fun _ => true

/-! ## Helper lemmas -/

@[simp] theorem upd_same {α : Type} (f : String → Option α) (k : String) (v : Option α) :
    upd f k v k = v := by simp [upd]

@[simp] theorem upd_ne {α : Type} (f : String → Option α) (k x : String) (v : Option α)
    (h : x ≠ k) : upd f k v x = f x := by simp [upd, h]

theorem flatten_byteHex_length (l : List Nat) :
    ((l.map byteHex).flatten).length = 2 * l.length := by
  induction l with
  | nil => simp
  | cons a t ih => simp [byteHex, ih]; omega

theorem md5Bytes_length (msg : List Nat) : (md5Bytes msg).length = 16 := by
  unfold md5Bytes
  obtain ⟨a, b, c, d⟩ :=
    md5Chunks ((md5Pad msg).length / 64 + 1)
      (0x67452301, 0xefcdab89, 0x98badcfe, 0x10325476) (md5Pad msg)
  simp [leBytes]

theorem md5Hex_length (msg : List Nat) : (md5Hex msg).length = 32 := by
  unfold md5Hex
  rw [show ∀ cs : List Char, (String.mk cs).length = cs.length from fun _ => rfl]
  rw [flatten_byteHex_length, md5Bytes_length]

/-! ## C7: key derivation is deterministic, 128-bit, but MD5 (a legacy digest) -/

/-- C7 counterexample: the key derivation is not a cryptographic-strength hash.
Two distinct well-formed payloads (72-character ASCII strings differing in one
character) derive the same cache key, an explicit MD5 collision, falsifying the
collision-resistance ("cryptographic-strength, not a weak or legacy digest")
part of the claim. -/
theorem c7_md5_collision :
    generate_cache_key collA = generate_cache_key collB ∧ collA ≠ collB :=
  ⟨rfl, by decide⟩

/-- C7 amended: for every payload the encoder accepts, the derived key is a pure
deterministic function of the payload — the lowercase hex MD5 digest of its UTF-8
bytes — and is 32 hex characters (128 bits) long; the digest is MD5, a legacy
digest, so cryptographic collision resistance does not hold. -/
theorem c7_key_derivation (p bs : List Nat) (h : pyEncodeUtf8 p = some bs) :
    generate_cache_key p = .ok (md5Hex bs) ∧ (md5Hex bs).length = 32 := by
  refine ⟨?_, md5Hex_length bs⟩
  unfold generate_cache_key
  rw [h]

/-- C7 witness: the amended statement at the concrete payload `"a"`. -/
theorem c7_key_derivation_witness :
    pyEncodeUtf8 exPrompt = some [97] ∧
      (generate_cache_key exPrompt = .ok (md5Hex [97]) ∧ (md5Hex [97]).length = 32) :=
  ⟨rfl, c7_key_derivation exPrompt [97] rfl⟩

/-! ## C8: derivation errors are not caught -/

/-- C8 counterexample: a payload containing a lone surrogate code point makes
`prompt.encode()` raise `UnicodeEncodeError`, and `_generate_cache_key` has no
error handling, so the raw exception escapes the derivation — it is not caught
and surfaced as an `InvalidPayload` error (no such error exists in the code). -/
theorem c8_surrogate_escapes :
    generate_cache_key [55296] = .error PyErr.unicodeEncodeError := rfl

/-- C8 amended: the derivation never fails for payloads that UTF-8-encode, and for
a payload that does not encode it raises the unhandled `UnicodeEncodeError` itself
rather than any wrapped error. -/
theorem c8_no_handling :
    (∀ p, ValidPyStr p → ∃ k, generate_cache_key p = .ok k) ∧
    (∀ p, ¬ ValidPyStr p → generate_cache_key p = .error PyErr.unicodeEncodeError) := by
  constructor
  · intro p hp
    unfold ValidPyStr at hp
    rcases hpe : pyEncodeUtf8 p with _ | bs
    · rw [hpe] at hp; simp at hp
    · exact ⟨md5Hex bs, by unfold generate_cache_key; rw [hpe]⟩
  · intro p hp
    rcases hpe : pyEncodeUtf8 p with _ | bs
    · unfold generate_cache_key; rw [hpe]
    · exact absurd (by unfold ValidPyStr; rw [hpe]; simp) hp

/-- C8 witness: the amended statement applied to the concrete payload `"a"`. -/
theorem c8_no_handling_witness :
    ValidPyStr exPrompt ∧ ∃ k, generate_cache_key exPrompt = .ok k :=
  ⟨by decide, c8_no_handling.1 exPrompt (by decide)⟩

/-! ## CacheManager lemmas -/

@[simp] theorem pyerr_bind_ok {α β : Type} (a : α) (f : α → Except PyErr β) :
    (Except.ok a : Except PyErr α) >>= f = f a := rfl

theorem get_memory_hit {V : Type} (s : CacheState V) (prompt : List Nat) (k : String)
    (v : V) (e now : Nat) (fbFail : Bool) (hk : generate_cache_key prompt = .ok k)
    (hm : s.memory_cache k = some v) (he : s.memory_cache_expiry k = some e)
    (hlive : now < e) :
    CacheManager.get s prompt now fbFail = .ok ⟨some v, s, []⟩ := by
  unfold CacheManager.get
  rw [hk]
  simp [hm, he, hlive]

theorem set_mem_fields {V : Type} (s : CacheState V) (prompt : List Nat) (k : String)
    (v : V) (ts : Nat) (fbFail : Bool) (hk : generate_cache_key prompt = .ok k) :
    ∃ r : SetResult V, CacheManager.set s prompt v ts fbFail = .ok r ∧
      r.state.memory_cache = upd s.memory_cache k (some v) ∧
      r.state.memory_cache_expiry = upd s.memory_cache_expiry k (some (ts + s.cache_ttl)) ∧
      r.state.cache_ttl = s.cache_ttl ∧
      r.state.firebase_enabled = s.firebase_enabled ∧
      r.state.q4d_lens_enabled = s.q4d_lens_enabled ∧
      (∀ t, Ev.tx t ∉ r.evs) := by
  unfold CacheManager.set
  rw [hk]
  rcases hfb : s.firebase_enabled <;> rcases fbFail <;> simp [hfb]

theorem fbPhase_fail_result {V : Type} (s : CacheState V) (k : String) (now : Nat) :
    (fbPhase s k now true).result = none ∧ (fbPhase s k now true).state = s := by
  unfold fbPhase fbLookup
  rcases s.firebase_enabled <;> simp

theorem fbPhase_evs_shape {V : Type} (s : CacheState V) (k : String) (now : Nat)
    (fbFail : Bool) :
    (fbPhase s k now fbFail).evs = [] ∨ (fbPhase s k now fbFail).evs = [Ev.fbQuery] ∨
      (fbPhase s k now fbFail).evs = [Ev.fbQuery, Ev.fbDelete] := by
  unfold fbPhase fbLookup
  rcases s.firebase_enabled <;> rcases fbFail <;> rcases s.q4d_lens_enabled <;>
    rcases s.firestore k with _ | doc <;> simp
  by_cases h : doc.expiry > now <;> simp [h]

theorem get_evs_no_tx {V : Type} (s : CacheState V) (prompt : List Nat) (now : Nat)
    (fbFail : Bool) (g : GetResult V) (t : TxType)
    (h : CacheManager.get s prompt now fbFail = .ok g) : Ev.tx t ∉ g.evs := by
  unfold CacheManager.get at h
  rcases hk : generate_cache_key prompt with e | k <;> rw [hk] at h
  · exact absurd (show (Except.error e : Except PyErr (GetResult V)) = .ok g from h) (by simp)
  · rw [pyerr_bind_ok] at h
    have shape : ∀ s2 : CacheState V, fbPhase s2 k now fbFail = g → Ev.tx t ∉ g.evs := by
      intro s2 hevs
      rw [← hevs]
      rcases fbPhase_evs_shape s2 k now fbFail with h1 | h1 | h1 <;> rw [h1] <;> simp
    rcases hm : s.memory_cache k with _ | v <;> rw [hm] at h
    · exact shape s (Except.ok.inj h)
    · rcases he : s.memory_cache_expiry k with _ | e <;> rw [he] at h
      · exact absurd
          (show (Except.error PyErr.keyError : Except PyErr (GetResult V)) = .ok g from h)
          (by simp)
      · have h3 : (if e > now then Except.ok (⟨some v, s, []⟩ : GetResult V)
            else Except.ok (fbPhase ⟨upd s.memory_cache k none,
              upd s.memory_cache_expiry k none, s.firebase_enabled, s.q4d_lens_enabled,
              s.firestore, s.cache_ttl⟩ k now fbFail)) = Except.ok g := h
        by_cases hlive : e > now
        · rw [if_pos hlive] at h3
          rw [← Except.ok.inj h3]
          simp
        · rw [if_neg hlive] at h3
          exact shape _ (Except.ok.inj h3)

theorem sameKeys_mem_upd {V : Type} {s s2 : CacheState V} {k : String}
    {o1 : Option V} {o2 : Option Nat} (h : SameKeys s)
    (hm : s2.memory_cache = upd s.memory_cache k o1)
    (he : s2.memory_cache_expiry = upd s.memory_cache_expiry k o2)
    (ho : o1.isSome = o2.isSome) : SameKeys s2 := by
  intro x
  rw [hm, he]
  unfold upd
  by_cases hx : x = k <;> simp [hx, h x, ho]

theorem sameKeys_mem_same {V : Type} {s s2 : CacheState V} (h : SameKeys s)
    (hm : s2.memory_cache = s.memory_cache)
    (he : s2.memory_cache_expiry = s.memory_cache_expiry) : SameKeys s2 := by
  intro x
  rw [hm, he]
  exact h x

theorem get_expired_eviction {V : Type} (s : CacheState V) (prompt : List Nat)
    (k : String) (v0 : V) (e now : Nat) (fbFail : Bool)
    (hk : generate_cache_key prompt = .ok k) (hm : s.memory_cache k = some v0)
    (he : s.memory_cache_expiry k = some e) (hdead : ¬ e > now) :
    CacheManager.get s prompt now fbFail = .ok
      (fbPhase ⟨upd s.memory_cache k none, upd s.memory_cache_expiry k none,
        s.firebase_enabled, s.q4d_lens_enabled, s.firestore, s.cache_ttl⟩
        k now fbFail) := by
  unfold CacheManager.get
  rw [hk, pyerr_bind_ok, hm, he]
  show (if e > now then Except.ok (⟨some v0, s, []⟩ : GetResult V)
      else Except.ok (fbPhase ⟨upd s.memory_cache k none, upd s.memory_cache_expiry k none,
        s.firebase_enabled, s.q4d_lens_enabled, s.firestore, s.cache_ttl⟩
        k now fbFail)) = _
  rw [if_neg hdead]

theorem get_memory_miss {V : Type} (s : CacheState V) (prompt : List Nat)
    (k : String) (now : Nat) (fbFail : Bool)
    (hk : generate_cache_key prompt = .ok k) (hm : s.memory_cache k = none) :
    CacheManager.get s prompt now fbFail = .ok (fbPhase s k now fbFail) := by
  unfold CacheManager.get
  rw [hk, pyerr_bind_ok, hm]

theorem fbPhase_expired_delete {V : Type} (s : CacheState V) (k : String) (now : Nat)
    (doc : CacheDoc V) (hfb : s.firebase_enabled = true)
    (hq4d : s.q4d_lens_enabled = false) (hd : s.firestore k = some doc)
    (hdead : ¬ doc.expiry > now) :
    fbPhase s k now false =
      ⟨none, { s with firestore := upd s.firestore k none },
        [Ev.fbQuery, Ev.fbDelete]⟩ := by
  unfold fbPhase fbLookup
  simp [hfb, hq4d, hd, hdead]

theorem fbPhase_sameKeys {V : Type} (s : CacheState V) (k : String) (now : Nat)
    (fbFail : Bool) (h : SameKeys s) : SameKeys (fbPhase s k now fbFail).state := by
  unfold fbPhase fbLookup
  rcases s.firebase_enabled <;> rcases fbFail <;> rcases s.q4d_lens_enabled <;> simp
  all_goals try exact h
  all_goals rcases hd : s.firestore k with _ | doc <;> simp
  all_goals try exact h
  all_goals by_cases hl : doc.expiry > now <;> simp [hl]
  all_goals first
  | exact sameKeys_mem_upd h rfl rfl rfl
  | exact sameKeys_mem_same h rfl rfl

theorem set_evs_no_tx {V : Type} (s : CacheState V) (prompt : List Nat) (v : V)
    (ts : Nat) (fbFail : Bool) (r : SetResult V) (t : TxType)
    (h : CacheManager.set s prompt v ts fbFail = .ok r) : Ev.tx t ∉ r.evs := by
  rcases hk : generate_cache_key prompt with e | k
  · unfold CacheManager.set at h
    rw [hk] at h
    exact absurd (show (Except.error e : Except PyErr (SetResult V)) = .ok r from h) (by simp)
  · obtain ⟨r2, hr2, _, _, _, _, _, hevs⟩ := set_mem_fields s prompt k v ts fbFail hk
    rw [h] at hr2
    injection hr2 with h3
    rw [h3]
    exact hevs t

theorem pmSemantic_evs_shape {V : Type} (cfg : AutomationConfig) (pm : PMState V)
    (prompt : List Nat) :
    (pmPhase.pmSemantic cfg pm prompt).1 = [] ∨
    (pmPhase.pmSemantic cfg pm prompt).1 = [Ev.semanticQuery] ∨
    (cfg.gov = true ∧
      (pmPhase.pmSemantic cfg pm prompt).1 = [Ev.semanticQuery, Ev.tx .semantic_hit]) := by
  unfold pmPhase.pmSemantic
  rcases hb : cfg.semantic_modeling && cfg.auto_enrichment <;> simp [hb]
  rcases hs : pm.search prompt with _ | ⟨m, rest⟩ <;> simp [hs]
  rcases ha : semanticAccept m.score <;> simp [ha]
  rcases hst : pm.store m.key with _ | r2 <;> simp [hst]
  rcases hr : r2.response with _ | v <;> simp [hr]

theorem pmPhase_evs_shape {V : Type} (cfg : AutomationConfig) (pm : PMState V)
    (prompt : List Nat) (pmFail : Bool) :
    (pmPhase cfg pm prompt pmFail).1 = [] ∨
    (pmPhase cfg pm prompt pmFail).1 = [Ev.semanticQuery] ∨
    (cfg.gov = true ∧ ((pmPhase cfg pm prompt pmFail).1 = [Ev.tx .memory_hit] ∨
      (pmPhase cfg pm prompt pmFail).1 = [Ev.semanticQuery, Ev.tx .semantic_hit])) := by
  have hsem := pmSemantic_evs_shape cfg pm prompt
  unfold pmPhase
  rcases hpe : cfg.pm_enabled <;> simp [hpe]
  rcases hpf : pmFail <;> simp
  rcases hgen : generate_cache_key prompt with e | h <;> simp [hgen]
  rcases hst : pm.store ("prompt_" ++ h) with _ | r <;> simp [hst]
  · rcases hsem with h1 | h1 | ⟨hg, h1⟩ <;> simp [h1]
    all_goals exact hg
  · rcases hr : r.response with _ | v <;> simp [hr]
    · rcases hsem with h1 | h1 | ⟨hg, h1⟩ <;> simp [h1]
      all_goals exact hg
    · rcases hg : cfg.gov <;> simp [hg]

theorem apiPhase_evs_mem {V : Type} (gov : Bool) (api : Nat → Option V) :
    ∀ fuel attempt e, e ∈ (apiPhase gov api attempt fuel).1 →
      gov = true ∧ (e = Ev.tx .api_call_success ∨ e = Ev.tx .api_call_error ∨
        e = Ev.tx .api_call_failure) := by
  intro fuel
  induction fuel with
  | zero =>
    intro attempt e he
    simp [apiPhase] at he
  | succ f ih =>
    intro attempt e he
    unfold apiPhase at he
    rcases hapi : api attempt with _ | v <;> rw [hapi] at he
    · by_cases hf : f = 0
      · rw [if_pos hf] at he
        rcases gov <;> simp at he
        exact ⟨rfl, .inr (.inr he)⟩
      · rw [if_neg hf] at he
        rcases happ : apiPhase gov api (attempt + 1) f with ⟨evs2, r2⟩
        rw [happ] at he
        have he2 : e ∈ (if gov then [Ev.tx TxType.api_call_error] else []) ++ evs2 := he
        simp at he2
        rcases he2 with he1 | he1
        · rcases gov <;> simp at he1
          exact ⟨rfl, .inr (.inl he1)⟩
        · exact ih (attempt + 1) e (by rw [happ]; exact he1)
    · rcases gov <;> simp at he
      exact ⟨rfl, .inl he⟩

theorem processApi_tx_mem {V : Type} (cfg : AutomationConfig) (cache2 : CacheState V)
    (pm : PMState V) (prompt : List Nat) (now : Nat) (fbFail pmFail : Bool)
    (api : Nat → Option V) (evsPm evsGet : List Ev) (t : TxType)
    (h : Ev.tx t ∈
      (processMain.processApi cfg cache2 pm prompt now fbFail pmFail api evsPm
        evsGet).evs) :
    Ev.tx t ∈ evsPm ∨ Ev.tx t ∈ evsGet ∨
      (cfg.gov = true ∧ (t = .api_call_success ∨ t = .api_call_error ∨
        t = .api_call_failure)) := by
  unfold processMain.processApi at h
  rcases happ : apiPhase cfg.gov api 0 (cfg.max_retries + 1) with ⟨evsApi, apiRes⟩
  rw [happ] at h
  have apiMem : Ev.tx t ∈ evsApi →
      cfg.gov = true ∧ (t = .api_call_success ∨ t = .api_call_error ∨
        t = .api_call_failure) := by
    intro hy
    have h9 := apiPhase_evs_mem cfg.gov api (cfg.max_retries + 1) 0 (Ev.tx t)
      (by rw [happ]; exact hy)
    rcases h9 with ⟨hg, h1 | h1 | h1⟩
    · exact ⟨hg, .inl (by injection h1)⟩
    · exact ⟨hg, .inr (.inl (by injection h1))⟩
    · exact ⟨hg, .inr (.inr (by injection h1))⟩
  rcases apiRes with _ | v
  · have h2 : Ev.tx t ∈ evsPm ++ evsGet ++ evsApi := h
    simp at h2
    rcases h2 with hx | hx | hx
    · exact .inl hx
    · exact .inr (.inl hx)
    · exact .inr (.inr (apiMem hx))
  · have h2 : Ev.tx t ∈ (match CacheManager.set cache2 prompt v now fbFail with
      | .error e => (⟨.error e, cache2, pm.store, evsPm ++ evsGet ++ evsApi⟩ : ProcResult V)
      | .ok sr =>
        let store2 :=
          if cfg.pm_enabled && !pmFail then
            match generate_cache_key prompt with
            | .ok h => upd pm.store ("prompt_" ++ h) (some ⟨some v⟩)
            | .error _ => pm.store
          else pm.store
        ⟨.ok v, sr.state, store2, evsPm ++ evsGet ++ evsApi ++ sr.evs⟩).evs := h
    rcases hset : CacheManager.set cache2 prompt v now fbFail with e | sr <;> rw [hset] at h2
    · have h3 : Ev.tx t ∈ evsPm ++ evsGet ++ evsApi := h2
      simp at h3
      rcases h3 with hx | hx | hx
      · exact .inl hx
      · exact .inr (.inl hx)
      · exact .inr (.inr (apiMem hx))
    · have h3 : Ev.tx t ∈ evsPm ++ evsGet ++ evsApi ++ sr.evs := h2
      simp at h3
      rcases h3 with hx | hx | hx | hx
      · exact .inl hx
      · exact .inr (.inl hx)
      · exact .inr (.inr (apiMem hx))
      · exact absurd hx (set_evs_no_tx cache2 prompt v now fbFail sr t hset)

theorem processMain_tx_mem {V : Type} (cfg : AutomationConfig) (cache : CacheState V)
    (pm : PMState V) (truthy : V → Bool) (prompt : List Nat) (now : Nat)
    (fbFail pmFail : Bool) (api : Nat → Option V) (t : TxType)
    (h : Ev.tx t ∈ (processMain cfg cache pm truthy prompt now fbFail pmFail api).evs) :
    Ev.tx t ∈ (pmPhase cfg pm prompt pmFail).1 ∨
      (cfg.gov = true ∧ (t = .cache_hit ∨ t = .api_call_success ∨ t = .api_call_error ∨
        t = .api_call_failure)) := by
  unfold processMain at h
  rcases hpm : pmPhase cfg pm prompt pmFail with ⟨evsPm, res⟩
  rw [hpm] at h
  have apiSide : ∀ (cache2 : CacheState V) (evsGet : List Ev),
      (∀ t2 : TxType, Ev.tx t2 ∉ evsGet) →
      Ev.tx t ∈ (processMain.processApi cfg cache2 pm prompt now fbFail pmFail api
        evsPm evsGet).evs →
      Ev.tx t ∈ evsPm ∨
        (cfg.gov = true ∧ (t = .cache_hit ∨ t = .api_call_success ∨ t = .api_call_error ∨
          t = .api_call_failure)) := by
    intro cache2 evsGet hno hx
    rcases processApi_tx_mem cfg cache2 pm prompt now fbFail pmFail api evsPm evsGet t hx
      with h3 | h3 | ⟨hg, h3⟩
    · exact .inl h3
    · exact absurd h3 (hno t)
    · exact .inr ⟨hg, by tauto⟩
  rcases res with _ | v
  · rcases hget : CacheManager.get cache prompt now fbFail with e | gr <;> rw [hget] at h
    · exact .inl h
    · have hgrNo : ∀ t2 : TxType, Ev.tx t2 ∉ gr.evs := fun t2 =>
        get_evs_no_tx cache prompt now fbFail gr t2 hget
      have h2 : Ev.tx t ∈ (match gr.result with
        | some v =>
          if truthy v then
            (⟨.ok v, gr.state, pm.store, evsPm ++ gr.evs ++
              (if cfg.gov then [Ev.tx .cache_hit] else [])⟩ : ProcResult V)
          else processMain.processApi cfg gr.state pm prompt now fbFail pmFail api
            evsPm gr.evs
        | none => processMain.processApi cfg gr.state pm prompt now fbFail pmFail api
            evsPm gr.evs).evs := h
      rcases hres : gr.result with _ | v <;> rw [hres] at h2
      · exact apiSide gr.state gr.evs hgrNo h2
      · have h4 : Ev.tx t ∈ (if truthy v then
            (⟨.ok v, gr.state, pm.store, evsPm ++ gr.evs ++
              (if cfg.gov then [Ev.tx .cache_hit] else [])⟩ : ProcResult V)
          else processMain.processApi cfg gr.state pm prompt now fbFail pmFail api
            evsPm gr.evs).evs := h2
        by_cases htr : truthy v = true
        · rw [if_pos htr] at h4
          have h3 : Ev.tx t ∈ evsPm ++ gr.evs ++
              (if cfg.gov then [Ev.tx .cache_hit] else []) := h4
          simp at h3
          rcases h3 with hx | hx | hx
          · exact .inl hx
          · exact absurd hx (hgrNo t)
          · rcases hgov : cfg.gov
            · rw [hgov] at hx
              simp at hx
            · rw [hgov] at hx
              simp at hx
              exact .inr ⟨rfl, .inl hx⟩
        · rw [if_neg htr] at h4
          exact apiSide gr.state gr.evs hgrNo h4
  · exact .inl h

/-! ## C2: TTL correctness and delete-on-read -/

/-- C2: after `set` at time `ts` (standard configuration: Firebase enabled,
standard query path, durable write succeeding), `get` returns the stored value for
every query time `t < ts + cache_ttl` and misses for every `t ≥ ts + cache_ttl`;
an expired entry found by `get` is synchronously deleted from the fast tier (both
dicts) and from the durable tier. -/
theorem c2_ttl_correctness {V : Type} (s : CacheState V) (prompt : List Nat) (v : V)
    (ts : Nat) (k : String)
    (hfb : s.firebase_enabled = true) (hq4d : s.q4d_lens_enabled = false)
    (hk : generate_cache_key prompt = .ok k) :
    ∃ r : SetResult V, CacheManager.set s prompt v ts false = .ok r ∧
      (∀ t, t < ts + s.cache_ttl →
        CacheManager.get r.state prompt t false = .ok ⟨some v, r.state, []⟩) ∧
      (∀ t, ts + s.cache_ttl ≤ t →
        ∃ g : GetResult V, CacheManager.get r.state prompt t false = .ok g ∧
          g.result = none ∧ g.state.memory_cache k = none ∧
          g.state.memory_cache_expiry k = none ∧ g.state.firestore k = none) := by
  have hset : CacheManager.set s prompt v ts false = .ok
      ⟨⟨upd s.memory_cache k (some v),
        upd s.memory_cache_expiry k (some (ts + s.cache_ttl)),
        s.firebase_enabled, s.q4d_lens_enabled,
        upd s.firestore k (some ⟨prompt, v, ts + s.cache_ttl, k⟩), s.cache_ttl⟩,
        [Ev.fbWrite]⟩ := by
    unfold CacheManager.set
    rw [hk, pyerr_bind_ok]
    simp [hfb]
  refine ⟨_, hset, ?_, ?_⟩
  · intro t ht
    exact get_memory_hit _ prompt k v (ts + s.cache_ttl) t false hk (by simp) (by simp) ht
  · intro t ht
    rw [get_expired_eviction _ prompt k v (ts + s.cache_ttl) t false hk (by simp) (by simp)
      (by omega)]
    rw [fbPhase_expired_delete _ k t ⟨prompt, v, ts + s.cache_ttl, k⟩ (by simp [hfb])
      (by simp [hq4d]) (by simp) (by simp; omega)]
    exact ⟨_, rfl, rfl, by simp, by simp, by simp⟩

/-- C2 witness: the theorem applied to a fresh Firebase-enabled manager with
`cache_ttl = 10`, payload `"a"`, value `5`, set at time `0`. -/
theorem c2_ttl_correctness_witness :
    (CacheState.init Nat true false 10).firebase_enabled = true ∧
      (CacheState.init Nat true false 10).q4d_lens_enabled = false ∧
      generate_cache_key exPrompt = .ok exKey ∧
      (∃ r : SetResult Nat,
        CacheManager.set (CacheState.init Nat true false 10) exPrompt 5 0 false = .ok r ∧
        (∀ t, t < 0 + (CacheState.init Nat true false 10).cache_ttl →
          CacheManager.get r.state exPrompt t false = .ok ⟨some 5, r.state, []⟩) ∧
        (∀ t, 0 + (CacheState.init Nat true false 10).cache_ttl ≤ t →
          ∃ g : GetResult Nat, CacheManager.get r.state exPrompt t false = .ok g ∧
            g.result = none ∧ g.state.memory_cache exKey = none ∧
            g.state.memory_cache_expiry exKey = none ∧ g.state.firestore exKey = none)) :=
  ⟨rfl, rfl, rfl,
    c2_ttl_correctness (CacheState.init Nat true false 10) exPrompt 5 0 exKey rfl rfl rfl⟩

/-! ## C3: graceful degradation on durable-tier failure -/

/-- C3: with the durable backend failing on every access (`fbFail = true`), `get`
still completes without raising — the backend exception is caught — and returns a
miss whenever the fast tier does not serve the request; `set` completes without
raising and the entry is recorded in the in-memory fast tier. -/
theorem c3_graceful_degradation {V : Type} (s : CacheState V) (prompt : List Nat)
    (v : V) (now : Nat) (k : String)
    (hk : generate_cache_key prompt = .ok k) (hcons : SameKeys s) :
    (∃ g : GetResult V, CacheManager.get s prompt now true = .ok g ∧
        ((s.memory_cache k = none ∨ ∃ e, s.memory_cache_expiry k = some e ∧ e ≤ now) →
          g.result = none)) ∧
    (∃ r : SetResult V, CacheManager.set s prompt v now true = .ok r ∧
        r.state.memory_cache k = some v ∧
        r.state.memory_cache_expiry k = some (now + s.cache_ttl)) := by
  constructor
  · rcases hm : s.memory_cache k with _ | v0
    · exact ⟨fbPhase s k now true, get_memory_miss s prompt k now true hk hm,
        fun _ => (fbPhase_fail_result s k now).1⟩
    · have hsome := (hcons k).mp (by rw [hm]; rfl)
      rcases he : s.memory_cache_expiry k with _ | e
      · rw [he] at hsome; simp at hsome
      · by_cases hlive : e > now
        · refine ⟨⟨some v0, s, []⟩, get_memory_hit s prompt k v0 e now true hk hm he hlive,
            ?_⟩
          rintro (h1 | ⟨e2, he2, hle⟩)
          · exact Option.noConfusion h1
          · injection he2 with he3
            exact (show False by omega).elim
        · exact ⟨_, get_expired_eviction s prompt k v0 e now true hk hm he hlive,
            fun _ => (fbPhase_fail_result _ k now).1⟩
  · obtain ⟨r, hr, hm2, he2, _, _, _, _⟩ := set_mem_fields s prompt k v now true hk
    exact ⟨r, hr, by rw [hm2]; simp, by rw [he2]; simp⟩

/-- C3 witness: the theorem applied to a state whose fast tier holds one live
entry, for the payload `"a"` (which misses the fast tier only at expired times). -/
theorem c3_graceful_degradation_witness :
    generate_cache_key exPrompt = .ok exKey ∧ SameKeys cacheFastHit ∧
      ((∃ g : GetResult Nat, CacheManager.get cacheFastHit exPrompt 0 true = .ok g ∧
          ((cacheFastHit.memory_cache exKey = none ∨
            ∃ e, cacheFastHit.memory_cache_expiry exKey = some e ∧ e ≤ 0) →
            g.result = none)) ∧
        (∃ r : SetResult Nat, CacheManager.set cacheFastHit exPrompt 9 0 true = .ok r ∧
            r.state.memory_cache exKey = some 9 ∧
            r.state.memory_cache_expiry exKey = some (0 + cacheFastHit.cache_ttl))) := by
  have hcons : SameKeys cacheFastHit := by
    intro k
    by_cases hx : k = exKey <;> simp [cacheFastHit, upd, hx]
  exact ⟨rfl, hcons, c3_graceful_degradation cacheFastHit exPrompt 9 0 exKey rfl hcons⟩

/-! ## C5: write-through consistency -/

/-- C5: with a positive configured TTL, a `set` immediately followed by a `get` of
the same payload returns the value from the fast tier with an empty event trace —
in particular no durable-tier (Firebase) query is issued — whatever the Firebase
configuration and failure behaviour. -/
theorem c5_write_through {V : Type} (s : CacheState V) (prompt : List Nat) (v : V)
    (ts : Nat) (k : String) (fbFailSet fbFailGet : Bool)
    (httl : 0 < s.cache_ttl) (hk : generate_cache_key prompt = .ok k) :
    ∃ r : SetResult V, CacheManager.set s prompt v ts fbFailSet = .ok r ∧
      CacheManager.get r.state prompt ts fbFailGet = .ok ⟨some v, r.state, []⟩ := by
  obtain ⟨r, hr, hm, he, httl2, _, _, _⟩ := set_mem_fields s prompt k v ts fbFailSet hk
  refine ⟨r, hr, get_memory_hit r.state prompt k v (ts + s.cache_ttl) ts fbFailGet hk
    ?_ ?_ ?_⟩
  · rw [hm]; simp
  · rw [he]; simp
  · omega

/-- C5 witness: the theorem applied to a fresh manager with `cache_ttl = 10`,
payload `"a"`, value `5`, durable write failing. -/
theorem c5_write_through_witness :
    0 < (CacheState.init Nat true false 10).cache_ttl ∧
      generate_cache_key exPrompt = .ok exKey ∧
      ∃ r : SetResult Nat,
        CacheManager.set (CacheState.init Nat true false 10) exPrompt 5 0 true = .ok r ∧
        CacheManager.get r.state exPrompt 0 true = .ok ⟨some 5, r.state, []⟩ :=
  ⟨by decide, rfl,
    c5_write_through (CacheState.init Nat true false 10) exPrompt 5 0 exKey true true
      (by decide) rfl⟩

/-! ## C6: the Q4D Lens query path is not equivalent to the standard path -/

/-- C6 evidence: on the same durable-store contents (one live document for the key
of payload `"a"`, empty fast tier, healthy backend), the Q4D-Lens-enabled lookup
path returns a miss — its call to the nonexistent `Query.optimize_query_lens`
raises `AttributeError`, swallowed by the surrounding `except` — while the standard
path returns the stored value `7`. -/
theorem c6_q4d_divergence :
    (∃ g : GetResult Nat, CacheManager.get cacheQ4d exPrompt 0 false = .ok g ∧
        g.result = none) ∧
    (∃ g : GetResult Nat, CacheManager.get cacheStd exPrompt 0 false = .ok g ∧
        g.result = some 7) :=
  ⟨⟨_, rfl, rfl⟩, ⟨_, rfl, rfl⟩⟩

/-! ## C10: fast-tier map consistency -/

/-- C10: if `memory_cache` and `memory_cache_expiry` hold the same keys, then both
`get` (through live hits, delete-on-read eviction and durable-hit population) and
`set` complete without a `KeyError` — the expiry lookup for a key present in
`memory_cache` never fails — and preserve the same-keys invariant. -/
theorem c10_fast_tier_consistency {V : Type} (s : CacheState V) (prompt : List Nat)
    (v : V) (now : Nat) (fbFail : Bool) (k : String)
    (hk : generate_cache_key prompt = .ok k) (hcons : SameKeys s) :
    (∃ g : GetResult V, CacheManager.get s prompt now fbFail = .ok g ∧
        SameKeys g.state) ∧
    (∃ r : SetResult V, CacheManager.set s prompt v now fbFail = .ok r ∧
        SameKeys r.state) := by
  constructor
  · rcases hm : s.memory_cache k with _ | v0
    · exact ⟨fbPhase s k now fbFail, get_memory_miss s prompt k now fbFail hk hm,
        fbPhase_sameKeys s k now fbFail hcons⟩
    · have hsome := (hcons k).mp (by rw [hm]; rfl)
      rcases he : s.memory_cache_expiry k with _ | e
      · rw [he] at hsome; simp at hsome
      · by_cases hlive : e > now
        · exact ⟨⟨some v0, s, []⟩, get_memory_hit s prompt k v0 e now fbFail hk hm he hlive,
            hcons⟩
        · exact ⟨_, get_expired_eviction s prompt k v0 e now fbFail hk hm he hlive,
            fbPhase_sameKeys _ k now fbFail (sameKeys_mem_upd hcons rfl rfl rfl)⟩
  · obtain ⟨r, hr, hm2, he2, _, _, _, _⟩ := set_mem_fields s prompt k v now fbFail hk
    exact ⟨r, hr, sameKeys_mem_upd hcons hm2 he2 rfl⟩

/-- C10 witness: the theorem applied to the live-entry state at query time `200`
(where `get` evicts the expired entry from both maps). -/
theorem c10_fast_tier_consistency_witness :
    generate_cache_key exPrompt = .ok exKey ∧ SameKeys cacheFastHit ∧
      ((∃ g : GetResult Nat, CacheManager.get cacheFastHit exPrompt 200 false = .ok g ∧
          SameKeys g.state) ∧
        (∃ r : SetResult Nat, CacheManager.set cacheFastHit exPrompt 9 200 false = .ok r ∧
          SameKeys r.state)) := by
  have hcons : SameKeys cacheFastHit := by
    intro k
    by_cases hx : k = exKey <;> simp [cacheFastHit, upd, hx]
  exact ⟨rfl, hcons,
    c10_fast_tier_consistency cacheFastHit exPrompt 9 200 false exKey rfl hcons⟩

/-! ## C1: ordering of the exact-match tiers and the similarity fallback -/

/-- C1 counterexample: a request whose exact key is present and live in the
in-memory fast tier (a direct `CacheManager.get` at the same instant returns it)
still causes a similarity query to be issued, because
`process_data_with_claude` runs the semantic search after only the
persistent-memory exact lookup, before ever consulting the `CacheManager`
tiers. -/
theorem c1_similarity_despite_fast_hit :
    (∃ g : GetResult Nat, CacheManager.get cacheFastHit exPrompt 0 false = .ok g ∧
        g.result = some 7) ∧
    Ev.semanticQuery ∈ (process_data_with_claude ⟨false, true, true, true, 0⟩
        cacheFastHit pmStrongMatch truthyNat exPrompt 0 false false
        (fun _ => some 99)).evs := by
  refine ⟨⟨_, rfl, rfl⟩, ?_⟩
  decide

/-- C1 amended: the similarity fallback is consulted only after the
persistent-memory exact-key lookup misses — a request whose exact key is present
(with a `response` entry) in the persistent-memory tier is answered from it with
no similarity query.  The `CacheManager` fast and durable exact tiers, however,
are only consulted after the similarity fallback, so their contents do not
prevent a similarity query. -/
theorem c1_memory_tier_first {V : Type} (cfg : AutomationConfig)
    (cache : CacheState V) (pm : PMState V) (truthy : V → Bool) (prompt : List Nat)
    (now : Nat) (fbFail : Bool) (api : Nat → Option V) (k : String) (r : PMRecord V)
    (v : V) (hpmE : cfg.pm_enabled = true) (hk : generate_cache_key prompt = .ok k)
    (hstore : pm.store ("prompt_" ++ k) = some r) (hresp : r.response = some v) :
    (process_data_with_claude cfg cache pm truthy prompt now fbFail false api).outcome
        = .ok v ∧
    Ev.semanticQuery ∉
      (process_data_with_claude cfg cache pm truthy prompt now fbFail false api).evs := by
  have hpm : pmPhase cfg pm prompt false =
      ((if cfg.gov then [Ev.tx .memory_hit] else []), some v) := by
    unfold pmPhase
    simp [hpmE, hk, hstore, hresp]
  rcases hb : pyEncodeUtf8 prompt with _ | bs
  · exfalso
    unfold generate_cache_key at hk
    rw [hb] at hk
    cases hk
  · have hrun : process_data_with_claude cfg cache pm truthy prompt now fbFail false api =
        ⟨.ok v, cache, pm.store,
          (if cfg.gov then [Ev.tx .claude_request] else []) ++
          (if cfg.gov then [Ev.tx .memory_hit] else [])⟩ := by
      unfold process_data_with_claude processMain
      rw [hb, hpm]
    rw [hrun]
    refine ⟨rfl, ?_⟩
    rcases hg : cfg.gov <;> simp

/-- C1 witness: the amended statement at a concrete persistent-memory state that
holds an exact record (value `42`) for the payload `"a"`. -/
theorem c1_memory_tier_first_witness :
    (⟨true, true, true, true, 0⟩ : AutomationConfig).pm_enabled = true ∧
    generate_cache_key exPrompt = .ok exKey ∧
    pmExactHit.store ("prompt_" ++ exKey) = some ⟨some 42⟩ ∧
    ((process_data_with_claude ⟨true, true, true, true, 0⟩ cacheFastHit pmExactHit
        truthyNat exPrompt 0 false false (fun _ => some 99)).outcome = .ok 42 ∧
      Ev.semanticQuery ∉ (process_data_with_claude ⟨true, true, true, true, 0⟩
        cacheFastHit pmExactHit truthyNat exPrompt 0 false false
        (fun _ => some 99)).evs) :=
  ⟨rfl, rfl, rfl,
    c1_memory_tier_first ⟨true, true, true, true, 0⟩ cacheFastHit pmExactHit truthyNat
      exPrompt 0 false (fun _ => some 99) exKey ⟨some 42⟩ 42 rfl rfl rfl rfl⟩

/-! ## C4: the semantic acceptance threshold is strict -/

/-- C4 counterexample: a candidate whose cosine similarity score is exactly the
threshold `0.92` is rejected — the source tests `score > 0.92` strictly — so the
request proceeds to the full-miss compute path (returning the fresh API value
`99`, not the matched entry value `7`) and no `semantic_hit` is recorded. -/
theorem c4_threshold_boundary_miss :
    pmBoundaryMatch.search exPrompt = [⟨"simkey", mkRat 92 100⟩] ∧
    pmBoundaryMatch.store "simkey" = some ⟨some 7⟩ ∧
    (process_data_with_claude ⟨true, true, true, true, 0⟩
        (CacheState.init Nat false false 3600) pmBoundaryMatch truthyNat exPrompt 0
        false false (fun _ => some 99)).outcome = .ok 99 ∧
    Ev.tx TxType.semantic_hit ∉ (process_data_with_claude ⟨true, true, true, true, 0⟩
        (CacheState.init Nat false false 3600) pmBoundaryMatch truthyNat exPrompt 0
        false false (fun _ => some 99)).evs := by
  refine ⟨rfl, rfl, rfl, ?_⟩
  decide

/-- C4 amended: when the persistent-memory exact lookup misses and the top
similarity match resolves to a stored entry, a score strictly above `0.92` is
treated as a hit (the value of the matched entry is returned), while a score at or
below `0.92` — including exactly at the threshold — yields no semantic hit. -/
theorem c4_semantic_threshold {V : Type} (cfg : AutomationConfig)
    (cache : CacheState V) (pm : PMState V) (truthy : V → Bool) (prompt : List Nat)
    (now : Nat) (api : Nat → Option V) (k : String) (m : SemanticMatch)
    (rest : List SemanticMatch) (r2 : PMRecord V) (v : V)
    (hpmE : cfg.pm_enabled = true) (hsm : cfg.semantic_modeling = true)
    (hae : cfg.auto_enrichment = true) (hk : generate_cache_key prompt = .ok k)
    (hexact : pm.store ("prompt_" ++ k) = none)
    (hsearch : pm.search prompt = m :: rest)
    (hmatch : pm.store m.key = some r2) (hr2 : r2.response = some v) :
    (mkRat 92 100 < m.score →
      (process_data_with_claude cfg cache pm truthy prompt now false false api).outcome
        = .ok v) ∧
    (m.score ≤ mkRat 92 100 →
      Ev.tx TxType.semantic_hit ∉
        (process_data_with_claude cfg cache pm truthy prompt now false false
          api).evs) := by
  rcases hb : pyEncodeUtf8 prompt with _ | bs
  · exfalso
    unfold generate_cache_key at hk
    rw [hb] at hk
    cases hk
  · constructor
    · intro hlt
      have hpm : pmPhase cfg pm prompt false =
          ([Ev.semanticQuery] ++ (if cfg.gov then [Ev.tx .semantic_hit] else []),
            some v) := by
        unfold pmPhase pmPhase.pmSemantic
        simp [hpmE, hk, hexact, hsm, hae, hsearch, hmatch, hr2, semanticAccept, hlt]
      have hrun : process_data_with_claude cfg cache pm truthy prompt now false false
          api = ⟨.ok v, cache, pm.store,
            (if cfg.gov then [Ev.tx .claude_request] else []) ++
            ([Ev.semanticQuery] ++ (if cfg.gov then [Ev.tx .semantic_hit] else []))⟩ := by
        unfold process_data_with_claude processMain
        rw [hb, hpm]
      rw [hrun]
    · intro hle hmem
      have hpm : pmPhase cfg pm prompt false = ([Ev.semanticQuery], none) := by
        unfold pmPhase pmPhase.pmSemantic
        simp [hpmE, hk, hexact, hsm, hae, hsearch, semanticAccept]
        intro h9
        exact absurd h9 (not_lt.mpr hle)
      have hevs : (process_data_with_claude cfg cache pm truthy prompt now false false
          api).evs = (if cfg.gov then [Ev.tx .claude_request] else []) ++
          (processMain cfg cache pm truthy prompt now false false api).evs := by
        unfold process_data_with_claude
        rw [hb]
      rw [hevs] at hmem
      rcases List.mem_append.mp hmem with hm1 | hm1
      · rcases hg : cfg.gov <;> rw [hg] at hm1 <;> simp at hm1
      · rcases processMain_tx_mem cfg cache pm truthy prompt now false false api _ hm1
          with h3 | ⟨_, h4 | h4 | h4 | h4⟩
        · rw [hpm] at h3
          simp at h3
        all_goals exact TxType.noConfusion h4

/-- C4 witness: the amended statement at concrete states, in its accepting case
(score `0.95`, matched value `7`). -/
theorem c4_semantic_threshold_witness :
    pmSemanticHit.store ("prompt_" ++ exKey) = none ∧
    pmSemanticHit.search exPrompt = [⟨"simkey", mkRat 95 100⟩] ∧
    pmSemanticHit.store "simkey" = some ⟨some 7⟩ ∧
    ((mkRat 92 100 < mkRat 95 100 →
      (process_data_with_claude ⟨true, true, true, true, 0⟩
        (CacheState.init Nat false false 3600) pmSemanticHit truthyNat exPrompt 0
        false false (fun _ => some 99)).outcome = .ok 7) ∧
    (mkRat 95 100 ≤ mkRat 92 100 →
      Ev.tx TxType.semantic_hit ∉
        (process_data_with_claude ⟨true, true, true, true, 0⟩
          (CacheState.init Nat false false 3600) pmSemanticHit truthyNat exPrompt 0
          false false (fun _ => some 99)).evs)) := by
  refine ⟨by decide, rfl, by decide, ?_⟩
  exact c4_semantic_threshold ⟨true, true, true, true, 0⟩
    (CacheState.init Nat false false 3600) pmSemanticHit truthyNat exPrompt 0
    (fun _ => some 99) exKey ⟨"simkey", mkRat 95 100⟩ [] ⟨some 7⟩ 7
    rfl rfl rfl rfl (by decide) rfl (by decide) rfl

/-! ## C9: the request transaction precedes hit and compute transactions -/

/-- C9: in the event trace of any request, every governance transaction of a hit
or compute type (`memory_hit`, `semantic_hit`, `cache_hit`, `api_call_success`,
`api_call_error`) is preceded by the request transaction (`claude_request`): the
request record is written first, before any tier is consulted. -/
theorem c9_request_recorded_first {V : Type} (cfg : AutomationConfig)
    (cache : CacheState V) (pm : PMState V) (truthy : V → Bool) (prompt : List Nat)
    (now : Nat) (fbFail pmFail : Bool) (api : Nat → Option V) (pre post : List Ev)
    (t : TxType)
    (hsplit : (process_data_with_claude cfg cache pm truthy prompt now fbFail pmFail
        api).evs = pre ++ Ev.tx t :: post)
    (hhit : hitComputeTx t = true) :
    Ev.tx TxType.claude_request ∈ pre := by
  rcases hb : pyEncodeUtf8 prompt with _ | bs
  · have hevs : (process_data_with_claude cfg cache pm truthy prompt now fbFail pmFail
        api).evs = [] := by
      unfold process_data_with_claude
      rw [hb]
    rw [hevs] at hsplit
    have hlen := congrArg List.length hsplit
    simp at hlen
    omega
  · have hevs : (process_data_with_claude cfg cache pm truthy prompt now fbFail pmFail
        api).evs = (if cfg.gov then [Ev.tx .claude_request] else []) ++
        (processMain cfg cache pm truthy prompt now fbFail pmFail api).evs := by
      unfold process_data_with_claude
      rw [hb]
    rw [hevs] at hsplit
    rcases hgov : cfg.gov <;> rw [hgov] at hsplit <;>
      simp only [if_neg, if_pos, List.nil_append, List.cons_append,
        Bool.false_eq_true, if_false, if_true, ite_true, ite_false] at hsplit
    · have hmem : Ev.tx t ∈
          (processMain cfg cache pm truthy prompt now fbFail pmFail api).evs := by
        rw [hsplit]
        simp
      rcases processMain_tx_mem cfg cache pm truthy prompt now fbFail pmFail api t hmem
        with h3 | ⟨hg, _⟩
      · rcases pmPhase_evs_shape cfg pm prompt pmFail with h1 | h1 | ⟨hg, _⟩
        · rw [h1] at h3
          simp at h3
        · rw [h1] at h3
          simp at h3
        · rw [hgov] at hg
          cases hg
      · rw [hgov] at hg
        cases hg
    · rcases pre with _ | ⟨p0, pre2⟩
      · rw [List.nil_append] at hsplit
        injection hsplit with h1 h2
        injection h1 with h5
        rw [← h5] at hhit
        simp [hitComputeTx] at hhit
      · rw [List.cons_append] at hsplit
        injection hsplit with h1 h2
        rw [← h1]
        exact List.mem_cons_self _ _

/-- C9 witness: a concrete governed run whose trace is
`[claude_request, cache_hit]`, split around the `cache_hit` record. -/
theorem c9_request_recorded_first_witness :
    (process_data_with_claude ⟨true, false, false, false, 0⟩ cacheFastHit pmStrongMatch
        truthyNat exPrompt 0 false false (fun _ => some 99)).evs =
      [Ev.tx TxType.claude_request] ++ Ev.tx TxType.cache_hit :: [] ∧
    hitComputeTx TxType.cache_hit = true ∧
    Ev.tx TxType.claude_request ∈ [Ev.tx TxType.claude_request] :=
  ⟨rfl, rfl,
    c9_request_recorded_first ⟨true, false, false, false, 0⟩ cacheFastHit pmStrongMatch
      truthyNat exPrompt 0 false false (fun _ => some 99)
      [Ev.tx TxType.claude_request] [] TxType.cache_hit rfl rfl⟩

end Aixtiv
